import Mathlib

/-!
Verification of the legal-case-search frontend request/response layer.

The definitions below are a shallow embedding of
`src/frontend/src/components/SearchPage.tsx` (the `handleSubmit` handler,
its citation mapping, and `toggleCitations`), of the provider configuration
(the YAML configuration file), and of the submit guard shared with
`FixedSearchBar.tsx`.  JavaScript strings are Lean `String`s; JavaScript
`undefined`/absent fields are `Option`; JavaScript truthiness of a string
(`a || b`) is emptiness testing; `Array.prototype.split` on a single-character
separator is embedded as a recursive chunk splitter over the character list.
-/

namespace LegalSearch

/-- One citation object as received from the backend response
(`data.data.citations` elements, `{ citation, source }`). -/
structure BackendCitation where
  citation : String
  source : String
deriving Repr, DecidableEq

/-- The payload `data.data` of a backend response: `answer` and `citations`
may each be absent (`Option.none` models JavaScript `undefined`). -/
structure BackendData where
  answer : Option String
  citations : Option (List BackendCitation)
deriving Repr, DecidableEq

/-- The frontend `Citation` interface of `SearchPage.tsx`. -/
structure Citation where
  id : String
  title : String
  court : String
  year : String
  url : String
  citation : String
  source : String
deriving Repr, DecidableEq

/-- Message role, user or assistant. -/
inductive Role where
  | user
  | assistant
deriving Repr, DecidableEq

/-- The frontend `Message` interface.  `citations?` is optional, hence
`Option`; the optional boolean `loading?` is truthiness-tested by the
renderer, so absent and `false` coincide and it is embedded as `Bool`. -/
structure Message where
  id : String
  role : Role
  content : String
  citations : Option (List Citation)
  loading : Bool
deriving Repr, DecidableEq

/-- JavaScript `String.prototype.split` with a one-character separator,
on the character list: chunks between occurrences of the separator.
`split` never returns an empty array. -/
def splitChars (d : Char) : List Char → List (List Char)
  | [] => [[]]
  | c :: cs =>
    if c = d then [] :: splitChars d cs
    else
      match splitChars d cs with
      | [] => [[c]]
      | h :: t => (c :: h) :: t

/-- `s.split(d)[0]` of JavaScript: the first chunk of the split.
The `[]` case never occurs (`splitChars` is never empty). -/
def jsSplitHead (d : Char) (s : String) : String :=
  String.mk ((splitChars d s.data).headD [])

/-- JavaScript `a || b` on strings: the empty string is the only falsy
string value. -/
def jsOrString (a b : String) : String :=
  if a = "" then b else a

/-- The fixed fallback shown when the answer field is absent or empty
(`SearchPage.tsx` line 69). -/
def noInfoFallback : String :=
  "I couldn\x27t find relevant information for your query. Please try rephrasing your question."

/-- The fixed apology shown on the catch path of `handleSubmit`
(`SearchPage.tsx` line 87). -/
def connectionApology : String :=
  "I\x27m sorry, I couldn\x27t process your request. Please check your connection and try again."

/-- `data.data.answer || fallback`: absent or empty answers display the
fixed no-relevant-information sentence. -/
def answerContent (ans : Option String) : String :=
  match ans with
  | none => noInfoFallback
  | some a => jsOrString a noInfoFallback

/-- The per-citation mapping of `handleSubmit` (lines 70-78).  `cid` is the
client-fabricated unique identifier, produced in the source from
`Date.now().toString() + Math.random().toString(36).substr(2, 9)`; it is
passed in explicitly so that the wall-clock/randomness dependence is an
explicit input of the embedding. -/
def mapCitation (cid : String) (c : BackendCitation) : Citation :=
  { id := cid
    title := jsOrString (jsSplitHead '.' c.citation) c.citation
    court := jsOrString (jsSplitHead ',' c.source) c.source
    year := "N/A"
    url := "#"
    citation := c.citation
    source := c.source }

/-- `data.data.citations?.map(...)`: each element is mapped with its own
fabricated identifier, drawn from the identifier stream `cids` at the
position of the element. -/
def mapCitations (cids : Nat → String) (cs : List BackendCitation) : List Citation :=
  cs.enum.map (fun p => mapCitation (cids p.1) p.2)

/-- The assistant message built from a parsed successful response
(lines 66-79): `answer || fallback`, and `citations?.map(...) || []`. -/
def mkAssistantMessage (now : Nat) (cids : Nat → String) (data : BackendData) : Message :=
  { id := toString (now + 2)
    role := Role.assistant
    content := answerContent data.answer
    citations := some ((data.citations.map (mapCitations cids)).getD [])
    loading := false }

/-- The assistant message built on the catch path (lines 84-88): fixed
apology content and no `citations` field at all. -/
def errorMessage (now : Nat) : Message :=
  { id := toString (now + 2)
    role := Role.assistant
    content := connectionApology
    citations := none
    loading := false }

/-- Outcome of the `fetch` call: either a response with its `ok` flag and
parsed body, or a thrown network error. -/
inductive FetchOutcome where
  | response (ok : Bool) (data : BackendData)
  | networkError
deriving Repr, DecidableEq

/-- The final assistant message `handleSubmit` leaves in the list: the
mapped response when `response.ok`, the catch-path apology otherwise
(a non-ok response is thrown into the same catch, line 60). -/
def finalMessage (now : Nat) (cids : Nat → String) (o : FetchOutcome) : Message :=
  match o with
  | FetchOutcome.response true data => mkAssistantMessage now cids data
  | FetchOutcome.response false _ => errorMessage now
  | FetchOutcome.networkError => errorMessage now

/-- The request body of the single request operation:
`JSON.stringify({ query: input, model_id: null })`. -/
structure QueryRequest where
  query : String
  model_id : Option String
deriving Repr, DecidableEq

/-- The request `handleSubmit` issues (line 56): the raw input text and a
null model identifier. -/
def buildRequest (input : String) : QueryRequest :=
  { query := input, model_id := none }

/-- What `handleSubmit` decides on a form submission event. -/
inductive SubmitAction where
  | noRequest
  | request (q : QueryRequest)
deriving Repr, DecidableEq

/-- JavaScript `String.prototype.trim`: strip whitespace from both ends,
embedded over the character list. -/
def jsTrim (s : String) : String :=
  String.mk (((s.data.dropWhile Char.isWhitespace).reverse.dropWhile Char.isWhitespace).reverse)

/-- The guard of `handleSubmit` (line 31):
`if (!input.trim() || isLoading) return;`. -/
def handleSubmitAction (input : String) (isLoading : Bool) : SubmitAction :=
  if jsTrim input = "" ∨ isLoading = true then SubmitAction.noRequest
  else SubmitAction.request (buildRequest input)

/-- The user message appended at submission time (lines 33-37). -/
def userMessage (now : Nat) (input : String) : Message :=
  { id := toString now
    role := Role.user
    content := input
    citations := none
    loading := false }

/-- The loading placeholder appended at submission time (lines 39-44). -/
def loadingMessage (now : Nat) : Message :=
  { id := toString (now + 1)
    role := Role.assistant
    content := ""
    citations := none
    loading := true }

/-- `prev.slice(0, -1).concat([final])` (lines 81 and 89): drop the last
message (the loading placeholder) and append the final assistant message. -/
def completeSubmission (msgs : List Message) (final : Message) : List Message :=
  msgs.dropLast ++ [final]

/-- One full submission that issues a request: append the user message and
the loading placeholder (line 46), then, when the fetch settles, replace the
placeholder by the final assistant message. -/
def runSubmission (now : Nat) (cids : Nat → String) (input : String)
    (msgs : List Message) (o : FetchOutcome) : List Message :=
  completeSubmission (msgs ++ [userMessage now input, loadingMessage now])
    (finalMessage now cids o)

/-- `toggleCitations` (lines 95-101): remove the identifier when present
(`prev.filter(id => id !== messageId)`), append it when absent. -/
def toggleCitations (messageId : String) (prev : List String) : List String :=
  if messageId ∈ prev then prev.filter (fun i => i != messageId)
  else prev ++ [messageId]

/-- One provider entry of the `generation.providers` configuration list. -/
structure ProviderSpec where
  model_name : String
  provider : String
  priority : Nat
deriving Repr, DecidableEq

/-- The configured ordered provider list (configuration YAML,
`generation.providers`). -/
def configProviders : List ProviderSpec :=
  [{ model_name := "llama-3.3-70b-versatile", provider := "groq", priority := 1 },
   { model_name := "deepseek-ai/DeepSeek-V3", provider := "together", priority := 2 },
   { model_name := "gpt-4o", provider := "openai", priority := 3 },
   { model_name := "claude-3-opus-20240229", provider := "anthropic", priority := 4 }]

/-- Modelled from the spec: the backend pipeline outcome for one query.
The backend source is not in the repository; the spec names the terminal
states `Done` and `Failed(fatal)` / `Failed(all-providers-exhausted)`. -/
inductive PipelineResult where
  | done (answer : String) (citations : List BackendCitation)
  | failedFatal
  | failedExhausted
deriving Repr, DecidableEq

/-- Whether the pipeline processing of the query failed. -/
def PipelineResult.isFailure : PipelineResult → Bool
  | PipelineResult.done _ _ => false
  | PipelineResult.failedFatal => true
  | PipelineResult.failedExhausted => true

/-- Modelled from the spec: the generic, non-technical apology message the
backend places in the response body on any fatal path.  The backend source
is not in the repository; the spec fixes only that it is a single user-safe
fallback sentence with no citations. -/
def pipelineApology : String :=
  "Sorry, we could not process your request. Please try again later."

/-- Modelled from the spec: failure of the whole pipeline still yields a
well-formed, `ok` response object carrying the fallback message and an
empty citations list, never a transport-level error.  The backend source is
not in the repository. -/
def backendRespond (r : PipelineResult) : FetchOutcome :=
  match r with
  | PipelineResult.done a cs => FetchOutcome.response true { answer := some a, citations := some cs }
  | PipelineResult.failedFatal =>
      FetchOutcome.response true { answer := some pipelineApology, citations := some [] }
  | PipelineResult.failedExhausted =>
      FetchOutcome.response true { answer := some pipelineApology, citations := some [] }

/-- Modelled from the spec: the backend selects the generation chain from
the model identifier of the request; a null identifier selects the default
configured chain.  The backend source is not in the repository. -/
def selectProviders (model_id : Option String) : List ProviderSpec :=
  match model_id with
  | none => configProviders
  | some m => configProviders.filter (fun p => p.model_name = m)

/-- The presentation-relevant view of a displayed citation: every field
except the client-fabricated identifier. -/
structure CitationView where
  title : String
  court : String
  year : String
  url : String
  citation : String
  source : String
deriving Repr, DecidableEq

/-- Project a displayed citation to its presentation-relevant fields. -/
def citationView (c : Citation) : CitationView :=
  { title := c.title, court := c.court, year := c.year, url := c.url,
    citation := c.citation, source := c.source }

/-- The text of `s` preceding the first occurrence of the delimiter `d`
(the whole of `s` when `d` does not occur): the spec wording for the
title/court derivation rule. -/
def textBeforeFirst (d : Char) (s : String) : String :=
  String.mk (s.data.takeWhile (fun c => c != d))

/-- The derivation rule exactly as the claim words it: the text preceding
the first delimiter, with the raw string used as fallback only when the
string itself is empty. -/
def claimTitleOf (d : Char) (s : String) : String :=
  if s = "" then s else textBeforeFirst d s

/-- The derivation rule as amended: the text preceding the first delimiter,
with the raw string used as fallback whenever that text is empty (so in
particular when the string is empty or begins with the delimiter). -/
def amendedTitleOf (d : Char) (s : String) : String :=
  if textBeforeFirst d s = "" then s else textBeforeFirst d s

/-- A concrete identifier stream, used to instantiate witnesses. -/
def idStream0 : Nat → String :=
  fun _ => "cid"

/-- The first chunk of the split is exactly the run of characters preceding
the first occurrence of the delimiter. -/
theorem splitChars_headD (d : Char) (l : List Char) :
    (splitChars d l).headD [] = l.takeWhile (fun c => c != d) := by
  induction l with
  | nil => rfl
  | cons c cs ih =>
    rcases e : splitChars d cs with _ | ⟨h0, t⟩
    · rw [e] at ih
      by_cases hc : c = d <;>
        simp [splitChars, e, hc, List.takeWhile_cons, ← ih]
    · rw [e] at ih
      by_cases hc : c = d <;>
        simp [splitChars, e, hc, List.takeWhile_cons, ← ih]

/-- C1: for every query whose pipeline processing fails, the backend still
delivers a well-formed `ok` response object, never a transport-level error,
and the user-visible result — produced by the very same success-path
mapping `mkAssistantMessage` used for degraded or empty results, with no
special casing — is a single generic apology message with an empty
citations list and not marked loading. -/
theorem pipeline_failure_user_visible (r : PipelineResult) (h : r.isFailure = true)
    (now : Nat) (cids : Nat → String) :
    (∃ d, backendRespond r = FetchOutcome.response true d) ∧
    finalMessage now cids (backendRespond r)
      = mkAssistantMessage now cids { answer := some pipelineApology, citations := some [] } ∧
    (finalMessage now cids (backendRespond r)).content = pipelineApology ∧
    (finalMessage now cids (backendRespond r)).citations = some [] ∧
    (finalMessage now cids (backendRespond r)).role = Role.assistant ∧
    (finalMessage now cids (backendRespond r)).loading = false := by
  cases r with
  | done a cs => exact absurd h (by simp [PipelineResult.isFailure])
  | failedFatal =>
    refine ⟨⟨_, rfl⟩, rfl, ?_, rfl, rfl, rfl⟩
    show answerContent (some pipelineApology) = pipelineApology
    decide
  | failedExhausted =>
    refine ⟨⟨_, rfl⟩, rfl, ?_, rfl, rfl, rfl⟩
    show answerContent (some pipelineApology) = pipelineApology
    decide

/-- Witness for C1: the exhausted-provider pipeline outcome at concrete
inputs. -/
theorem pipeline_failure_user_visible_witness :
    (finalMessage 0 idStream0 (backendRespond PipelineResult.failedExhausted)).content
      = pipelineApology :=
  (pipeline_failure_user_visible PipelineResult.failedExhausted rfl 0 idStream0).2.2.1

/-- C2 counterexample: for a citation string beginning with the delimiter,
the code falls back to the raw string, while the claim as stated predicts
the (empty) text preceding the first delimiter, the string being
non-empty. -/
theorem title_rule_counterexample :
    (mapCitation "cid" { citation := ".X", source := "Y" }).title
      ≠ claimTitleOf '.' ".X" := by
  decide

/-- C2 (amended): the display title is the text of the citation string
preceding the first delimiter and the court label the text of the source
string preceding the first delimiter, except that whenever that text is
empty — in particular when the string is empty or begins with the
delimiter — the raw string is used verbatim as a fallback. -/
theorem citation_title_court_rule (cid : String) (c : BackendCitation) :
    (mapCitation cid c).title = amendedTitleOf '.' c.citation ∧
    (mapCitation cid c).court = amendedTitleOf ',' c.source := by
  have bridge : ∀ (d : Char) (s : String), jsSplitHead d s = textBeforeFirst d s := by
    intro d s
    unfold jsSplitHead textBeforeFirst
    rw [splitChars_headD]
  constructor <;>
    simp [mapCitation, amendedTitleOf, jsOrString, bridge]

/-- C3: every issued request carries exactly the raw query string and a
null model identifier, and a null identifier selects the default configured
provider chain. -/
theorem request_shape (input : String) :
    (buildRequest input).query = input ∧
    (buildRequest input).model_id = none ∧
    selectProviders (buildRequest input).model_id = configProviders :=
  ⟨rfl, rfl, rfl⟩

/-- C4: the mapped citation always carries the fixed unavailable
placeholders for year and URL, and its title and court depend only on the
citation string and the source string respectively. -/
theorem citation_fixed_placeholders :
    (∀ cid c, (mapCitation cid c).year = "N/A" ∧ (mapCitation cid c).url = "#") ∧
    (∀ cid cid' c c', BackendCitation.citation c = BackendCitation.citation c' →
        (mapCitation cid c).title = (mapCitation cid' c').title) ∧
    (∀ cid cid' c c', BackendCitation.source c = BackendCitation.source c' →
        (mapCitation cid c).court = (mapCitation cid' c').court) := by
  refine ⟨fun cid c => ⟨rfl, rfl⟩, ?_, ?_⟩
  · intro cid cid' c c' h
    simp [mapCitation, h]
  · intro cid cid' c c' h
    simp [mapCitation, h]

/-- Witness for C4: two citations sharing the citation string get the same
title whatever the fabricated identifiers are. -/
theorem citation_fixed_placeholders_witness :
    (mapCitation "a" { citation := "Smith. 2020", source := "HC" }).title
      = (mapCitation "b" { citation := "Smith. 2020", source := "Ct" }).title :=
  citation_fixed_placeholders.2.1 "a" "b"
    { citation := "Smith. 2020", source := "HC" }
    { citation := "Smith. 2020", source := "Ct" } rfl

/-- C5: a request is issued only when the input is non-empty after
trimming whitespace and no request is in flight, and then the query sent
is the raw input, which is not whitespace-only. -/
theorem submit_guard (input : String) (isLoading : Bool) (q : QueryRequest)
    (h : handleSubmitAction input isLoading = SubmitAction.request q) :
    jsTrim input ≠ "" ∧ isLoading = false ∧ q = buildRequest input ∧
    jsTrim q.query ≠ "" := by
  unfold handleSubmitAction at h
  by_cases hc : jsTrim input = "" ∨ isLoading = true
  · rw [if_pos hc] at h
    cases h
  · rw [if_neg hc] at h
    push_neg at hc
    obtain ⟨h1, h2⟩ := hc
    have hb : isLoading = false := by
      cases isLoading
      · rfl
      · exact absurd rfl h2
    injection h with hq
    refine ⟨h1, hb, hq.symm, ?_⟩
    rw [← hq]
    exact h1

/-- Witness for C5 at a concrete non-blank input. -/
theorem submit_guard_witness :
    jsTrim " hi " ≠ "" ∧ false = false ∧
      buildRequest " hi " = buildRequest " hi " ∧
      jsTrim (buildRequest " hi ").query ≠ "" :=
  submit_guard " hi " false (buildRequest " hi ") rfl

/-- C6: the configured provider list carries strictly ascending integer
priorities in list order (groq 1, together 2, openai 3, anthropic 4), so
list-order traversal is exactly ascending-priority traversal. -/
theorem providers_ascending_priority :
    configProviders.map (fun p => p.priority) = [1, 2, 3, 4] ∧
    configProviders.map (fun p => p.provider)
      = ["groq", "together", "openai", "anthropic"] ∧
    List.Pairwise (fun a b => a.priority < b.priority) configProviders := by
  refine ⟨rfl, rfl, ?_⟩
  decide

/-- C7: the displayed citation sequence, up to the client-fabricated
identifiers, is a pure function of the backend citations list — the same
list mapped under any two identifier streams (any wall-clock reading and
randomness) yields identical order, title, court, year, URL, citation and
source fields. -/
theorem citation_mapping_deterministic (cids cids' : Nat → String)
    (cs : List BackendCitation) :
    (mapCitations cids cs).map citationView
      = (mapCitations cids' cs).map citationView := by
  unfold mapCitations
  rw [List.map_map, List.map_map]
  rfl

/-- C8: the response-to-message mapping is total on degenerate responses —
an absent or empty answer displays the fixed no-relevant-information
sentence, an absent citations field yields the empty citations list, and
the citations field of the assistant message is always present. -/
theorem degenerate_response_total :
    (∀ now cids ocs,
        (mkAssistantMessage now cids { answer := none, citations := ocs }).content
          = noInfoFallback) ∧
    (∀ now cids ocs,
        (mkAssistantMessage now cids { answer := some "", citations := ocs }).content
          = noInfoFallback) ∧
    (∀ now cids oa,
        (mkAssistantMessage now cids { answer := oa, citations := none }).citations
          = some []) ∧
    (∀ now cids d, ((mkAssistantMessage now cids d).citations).isSome = true) :=
  ⟨fun _ _ _ => rfl, fun _ _ _ => rfl, fun _ _ _ => rfl, fun _ _ _ => rfl⟩

/-- C9: a completed submission replaces its loading placeholder by the
final assistant message: the list becomes the old list plus exactly one
user message and one non-loading assistant message, and no loading message
remains when none was there before. -/
theorem submission_message_lifecycle (now : Nat) (cids : Nat → String) (input : String)
    (msgs : List Message) (o : FetchOutcome) (h : ∀ m ∈ msgs, m.loading = false) :
    runSubmission now cids input msgs o
        = msgs ++ [userMessage now input, finalMessage now cids o] ∧
    (runSubmission now cids input msgs o).length = msgs.length + 2 ∧
    (∀ m ∈ runSubmission now cids input msgs o, m.loading = false) := by
  have key : runSubmission now cids input msgs o
      = msgs ++ [userMessage now input, finalMessage now cids o] := by
    unfold runSubmission completeSubmission
    rw [show msgs ++ [userMessage now input, loadingMessage now]
        = (msgs ++ [userMessage now input]) ++ [loadingMessage now] by simp,
      List.dropLast_concat]
    simp
  have hfin : (finalMessage now cids o).loading = false := by
    cases o with
    | response ok d => cases ok <;> rfl
    | networkError => rfl
  refine ⟨key, ?_, ?_⟩
  · rw [key]
    simp
  · rw [key]
    intro m hm
    rcases List.mem_append.mp hm with hmem | hmem
    · exact h m hmem
    · simp only [List.mem_cons, List.mem_singleton] at hmem
      rcases hmem with rfl | rfl | hfalse
      · rfl
      · exact hfin
      · exact absurd hfalse (List.not_mem_nil m)

/-- Witness for C9 on the empty prior list and a failed fetch. -/
theorem submission_message_lifecycle_witness :
    (runSubmission 0 idStream0 "q" [] FetchOutcome.networkError).length
      = List.length ([] : List Message) + 2 :=
  (submission_message_lifecycle 0 idStream0 "q" [] FetchOutcome.networkError
    (fun m hm => absurd hm (List.not_mem_nil m))).2.1

/-- C10: toggling a message identifier once flips its membership in the
expanded-citations list, and toggling it twice restores the original
membership. -/
theorem toggleCitations_membership (l : List String) (x : String) :
    (x ∈ toggleCitations x l ↔ x ∉ l) ∧
    (x ∈ toggleCitations x (toggleCitations x l) ↔ x ∈ l) := by
  have single : ∀ m : List String, x ∈ toggleCitations x m ↔ x ∉ m := by
    intro m
    unfold toggleCitations
    by_cases hm : x ∈ m
    · rw [if_pos hm]
      simp [List.mem_filter, hm]
    · rw [if_neg hm]
      simp [hm]
  refine ⟨single l, ?_⟩
  rw [single (toggleCitations x l), single l]
  exact not_not

end LegalSearch

